import Mathlib

/-!
# Verification of the `local-web-storage` client-side key-value store

The repository ships a client-side key-value store for micro-frontends:
an in-memory cache over an asynchronous durable backend (IndexedDB),
with same-page change notification (CustomEvent) and cross-tab
propagation (BroadcastChannel).

The core implementation file (`src/store.ts`) is not present in the
source tree (only its re-export `index.ts`, the README with its API
reference, the vite config and the end-to-end tests are).  The
operational definitions below are therefore modelled from the
specification's component design (sections 4.2-4.6) and the README's
"How It Works" / API-reference sections, and the claims are settled
against this model.

Values are kept abstract (a type parameter `V`); keys are strings.
Asynchronous effects are modelled by explicit success flags
(`durableOk` for the durable write, `transportOk` for the broadcast
transport) and by returning, alongside the new state, the list of
same-page events published, the list of broadcast messages posted and
a linear trace of the atomic steps the operation performed, in order.
-/

namespace LocalWebStorage

/-- Association list from string keys to `V`, modelling both the
in-memory cache and the durable backend's contents. -/
abbrev Assoc (V : Type) : Type := List (String × V)

/-- Lookup in an association list (first binding wins). -/
def alookup {V : Type} (m : Assoc V) (k : String) : Option V :=
  (m.find? (fun p => p.1 = k)).map (fun p => p.2)

/-- Insert/replace a binding (removes any previous binding for the key). -/
def aset {V : Type} (m : Assoc V) (k : String) (v : V) : Assoc V :=
  (k, v) :: m.filter (fun p => p.1 ≠ k)

/-- Remove a binding. -/
def adel {V : Type} (m : Assoc V) (k : String) : Assoc V :=
  m.filter (fun p => p.1 ≠ k)

/-- Error taxonomy of the spec (section 7): backend cannot be opened,
a put/delete/clear rejected after the optimistic cache update, or the
broadcast transport cannot be opened. -/
inductive StoreError : Type
  | backendUnavailable
  | persistenceFailed
  | transportUnavailable
deriving DecidableEq, Repr

/-- A change event `{key, newValue, oldValue}` as published on the
Same-Page Notifier; `none` encodes absence (`undefined`). -/
structure SPEvent (V : Type) : Type where
  key : String
  newValue : Option V
  oldValue : Option V
deriving DecidableEq, Repr

/-- Broadcast wire payload: a per-key change, or the distinct
`{ type: "clear" }` signal for bulk clear. -/
inductive BCMsg (V : Type) : Type
  | change (key : String) (newValue oldValue : Option V)
  | clear
deriving DecidableEq, Repr

/-- Atomic steps of a mutation, recorded in execution order. -/
inductive Step (V : Type) : Type
  | cacheWrite (key : String) (value : Option V)
  | cacheClear
  | durablePut (key : String) (value : V)
  | durableDelete (key : String)
  | durableClear
  | spPublish (e : SPEvent V)
  | bcPost (m : BCMsg V)
deriving DecidableEq, Repr

/-- Modelled from the spec: per-instance store state (section 3).
`src/store.ts` is absent from the source tree, so the state is taken
from the spec's data model: the in-memory cache maps a key to
`some (some v)` (loaded value), `some none` (confirmed absent) or is
missing the key (not yet loaded); the durable backend is a plain
key-value mapping. -/
structure StoreState (V : Type) : Type where
  cache : Assoc (Option V)
  backend : Assoc V
deriving DecidableEq, Repr

/-- The store state with empty cache and empty backend. -/
def StoreState.empty (V : Type) : StoreState V := ⟨[], []⟩

/-- Modelled from the spec: the old value of a key as seen by the
Change Propagator's step 1 — the cache's verdict if the key is loaded,
otherwise a lazy durable load (section 4.3 step 1). -/
def oldValueOf {V : Type} (s : StoreState V) (k : String) : Option V :=
  match alookup s.cache k with
  | some verdict => verdict
  | none => alookup s.backend k

/-- Modelled from the spec: reconciliation of the cache with a durable
backend scan (sections 4.2 and 4.6 `getAll`): for keys the cache has
loaded, the cache's verdict wins (a confirmed-absent entry hides any
backend value); all other keys come from the backend. -/
def reconcile {V : Type} (s : StoreState V) : Assoc V :=
  s.cache.filterMap (fun p => p.2.map (fun v => (p.1, v)))
    ++ s.backend.filter (fun p => (alookup s.cache p.1).isNone)

/-- Outcome of one mutation: the fulfilled/rejected result, the state
afterwards, the same-page events published, the broadcast messages
posted and the ordered trace of atomic steps. -/
structure OpResult (V : Type) : Type where
  result : Except StoreError Unit
  state : StoreState V
  spEvents : List (SPEvent V)
  bcMsgs : List (BCMsg V)
  trace : List (Step V)
deriving Repr

/-- Modelled from the spec: `set(key, value)` as sequenced by the
Change Propagator (section 4.3) and the README's Write Path: read the
old value, update the cache synchronously, issue the durable put; on
failure reject with `PersistenceFailed` without rolling back the cache
and without notifying; on success publish the change event on the
Same-Page Notifier, then post it on the Cross-Tab Notifier (dropped
when the transport is unavailable — contained failure). -/
def setOp {V : Type} (s : StoreState V) (k : String) (v : V)
    (durableOk transportOk : Bool) : OpResult V :=
  let old := oldValueOf s k
  let s1 : StoreState V := { s with cache := aset s.cache k (some v) }
  if durableOk then
    let s2 : StoreState V := { s1 with backend := aset s1.backend k v }
    let e : SPEvent V := ⟨k, some v, old⟩
    { result := .ok ()
      state := s2
      spEvents := [e]
      bcMsgs := if transportOk then [.change k (some v) old] else []
      trace := [.cacheWrite k (some v), .durablePut k v, .spPublish e]
        ++ (if transportOk then [.bcPost (.change k (some v) old)] else []) }
  else
    { result := .error .persistenceFailed
      state := s1
      spEvents := []
      bcMsgs := []
      trace := [.cacheWrite k (some v), .durablePut k v] }

/-- Modelled from the spec: `delete(key)` — the same propagation path
as `set` with `newValue = absent`; the cache records the key as
confirmed absent (section 4.3, section 4.6). -/
def deleteOp {V : Type} (s : StoreState V) (k : String)
    (durableOk transportOk : Bool) : OpResult V :=
  let old := oldValueOf s k
  let s1 : StoreState V := { s with cache := aset s.cache k none }
  if durableOk then
    let s2 : StoreState V := { s1 with backend := adel s1.backend k }
    let e : SPEvent V := ⟨k, none, old⟩
    { result := .ok ()
      state := s2
      spEvents := [e]
      bcMsgs := if transportOk then [.change k none old] else []
      trace := [.cacheWrite k none, .durableDelete k, .spPublish e]
        ++ (if transportOk then [.bcPost (.change k none old)] else []) }
  else
    { result := .error .persistenceFailed
      state := s1
      spEvents := []
      bcMsgs := []
      trace := [.cacheWrite k none, .durableDelete k] }

/-- Modelled from the spec: `clear()` — the bulk variant (section 4.3):
clears cache and durable backend, then emits one change event per
previously-known key with `newValue = absent`, and posts a single
`clear` signal cross-tab. -/
def clearOp {V : Type} (s : StoreState V)
    (durableOk transportOk : Bool) : OpResult V :=
  let known := reconcile s
  let s1 : StoreState V := { s with cache := [] }
  if durableOk then
    let s2 : StoreState V := { s1 with backend := [] }
    { result := .ok ()
      state := s2
      spEvents := known.map (fun p => ⟨p.1, none, some p.2⟩)
      bcMsgs := if transportOk then [.clear] else []
      trace := [.cacheClear, .durableClear]
        ++ known.map (fun p => .spPublish ⟨p.1, none, some p.2⟩)
        ++ (if transportOk then [.bcPost .clear] else []) }
  else
    { result := .error .persistenceFailed
      state := s1
      spEvents := []
      bcMsgs := []
      trace := [.cacheClear, .durableClear] }

/-- Modelled from the spec: `get(key)` (section 4.6, README Read
Path): return the cache's verdict when the key is loaded; otherwise
load from the durable backend (which may fail with
`BackendUnavailable`), populate the cache and return.  Absence is
reported in-band as `none` (`undefined`), never as an error. -/
def getOp {V : Type} (s : StoreState V) (k : String) (backendOk : Bool) :
    Except StoreError (Option V) × StoreState V :=
  match alookup s.cache k with
  | some verdict => (.ok verdict, s)
  | none =>
    if backendOk then
      let bv := alookup s.backend k
      (.ok bv, { s with cache := aset s.cache k bv })
    else
      (.error .backendUnavailable, s)

/-- Modelled from the spec: `getAll()` — reconcile the cache with a
fresh backend scan and return the union (section 4.6). -/
def getAllOp {V : Type} (s : StoreState V) (backendOk : Bool) :
    Except StoreError (Assoc V) × StoreState V :=
  if backendOk then
    let all := reconcile s
    (.ok all, { s with cache := all.map (fun p => (p.1, some p.2)) })
  else
    (.error .backendUnavailable, s)

/-- A subscription record: a (channel name, key, listener identity)
registration on the Same-Page Notifier. -/
structure Subscription : Type where
  channel : String
  key : String
  id : Nat
deriving DecidableEq, Repr

/-- Modelled from the spec: what one subscribed listener observes from
a sequence of events published on a channel of the Same-Page Notifier
— the `(oldValue, newValue)` pairs of the events whose key matches,
in publish order; delivery is synchronous and ordered (section 4.4),
and a listener on another channel observes nothing. -/
def listenerView {V : Type} (sub : Subscription) (ch : String)
    (es : List (SPEvent V)) : List (Option V × Option V) :=
  if sub.channel = ch then
    (es.filter (fun e => decide (e.key = sub.key))).map
      (fun e => (e.oldValue, e.newValue))
  else []

/-- Total number of listener invocations a list of subscriptions
receives from a sequence of same-page events. -/
def invocationCount {V : Type} (subs : List Subscription) (ch : String)
    (es : List (SPEvent V)) : Nat :=
  (subs.map (fun sub => (listenerView sub ch es).length)).sum

/-- Modelled from the spec: the broadcast transport delivers a posted
message to every execution context except the sender — it is "delivered
only to other execution contexts, never to the sender" (section 1
collaborators, section 4.5 no-echo guarantee). -/
def bcDelivered {V : Type} (sender receiver : Nat) (msgs : List (BCMsg V)) :
    List (BCMsg V) :=
  if receiver = sender then [] else msgs

/-- Modelled from the spec: the Cross-Tab Notifier forwards received
per-key change messages onto the receiving context's Same-Page
Notifier (section 4.5); the `clear` signal is not a per-key change. -/
def forwardReceived {V : Type} (msgs : List (BCMsg V)) : List (SPEvent V) :=
  msgs.filterMap (fun m =>
    match m with
    | .change k nv ov => some ⟨k, nv, ov⟩
    | .clear => none)

/-- The same-page events observed in context `ctx` after a mutation
performed in context `origin`: the local publishes when `ctx` is the
originating context, plus whatever the transport delivered to `ctx`
and the Cross-Tab Notifier forwarded. -/
def eventsInContext {V : Type} (origin ctx : Nat) (r : OpResult V) :
    List (SPEvent V) :=
  (if ctx = origin then r.spEvents else [])
    ++ forwardReceived (bcDelivered origin ctx r.bcMsgs)

/-- The store state holding `count = 0`, loaded in the cache — the
starting point of the three-sequential-sets ordering scenario. -/
def countState : StoreState Nat := ⟨[("count", some 0)], [("count", 0)]⟩

/-- The same-page events published by three sequential successful
`set("count", i)` calls, i = 1, 2, 3, on one instance starting from
`countState`. -/
def threeSetEvents : List (SPEvent Nat) :=
  let r₁ := setOp countState "count" 1 true true
  let r₂ := setOp r₁.state "count" 2 true true
  let r₃ := setOp r₂.state "count" 3 true true
  r₁.spEvents ++ r₂.spEvents ++ r₃.spEvents

/-- `StoreIdentity` — the resolved (database name, object-store name,
channel name) triple of a store instance. -/
structure StoreIdentity : Type where
  dbName : String
  storeName : String
  channelName : String
deriving DecidableEq, Repr

/-- `createStore` option handling, modelled from the README API
reference (`src/unnamed/part_001`, options table): the option object
is a string-keyed record whose recognised fields are `dbName` (default
`"local-web-storage"`), `storeName` (default `"store"`) and
`channelName` (default: the database name); unrecognised fields are
ignored, as a JS options object destructuring would. -/
def resolveOptions (opts : Assoc String) : StoreIdentity :=
  let dbName := (alookup opts "dbName").getD "local-web-storage"
  let storeName := (alookup opts "storeName").getD "store"
  let channelName := (alookup opts "channelName").getD dbName
  ⟨dbName, storeName, channelName⟩

end LocalWebStorage

namespace LocalWebStorage

/-- Looking up a key right after inserting it yields the inserted value. -/
theorem alookup_aset_self {V : Type} (m : Assoc V) (k : String) (v : V) :
    alookup (aset m k v) k = some v := by
  simp [alookup, aset]

/-- C1 -/
theorem set_then_get {V : Type} (s : StoreState V) (k : String) (v : V)
    (transportOk backendOk : Bool) :
    (setOp s k v true transportOk).result = .ok () ∧
    (getOp (setOp s k v true transportOk).state k backendOk).1 = .ok (some v) := by
  constructor
  · rfl
  · simp [setOp, getOp, alookup, aset]

/-- C2: when the durable write fails, `set` and `delete` reject with
`PersistenceFailed`, the optimistic cache update is not rolled back
(the cache still holds the new value, resp. records the key as
absent), and no change event is published on the Same-Page Notifier
nor posted on the Cross-Tab Notifier. -/
theorem durable_failure_rejects_without_rollback_or_events
    {V : Type} (s : StoreState V) (k : String) (v : V) (transportOk : Bool) :
    ((setOp s k v false transportOk).result = .error .persistenceFailed ∧
      alookup (setOp s k v false transportOk).state.cache k = some (some v) ∧
      (setOp s k v false transportOk).spEvents = [] ∧
      (setOp s k v false transportOk).bcMsgs = []) ∧
    ((deleteOp s k false transportOk).result = .error .persistenceFailed ∧
      alookup (deleteOp s k false transportOk).state.cache k = some none ∧
      (deleteOp s k false transportOk).spEvents = [] ∧
      (deleteOp s k false transportOk).bcMsgs = []) := by
  refine ⟨⟨rfl, ?_, rfl, rfl⟩, ⟨rfl, ?_, rfl, rfl⟩⟩
  · simpa [setOp] using alookup_aset_self s.cache k (some v)
  · simpa [deleteOp] using alookup_aset_self s.cache k (none : Option V)

/-- C3: a successful `set` or `delete` performs, in this order: the
synchronous cache write, then the durable write, then the publish of
`{key, newValue, oldValue}` on the Same-Page Notifier, then the post
on the Cross-Tab Notifier. -/
theorem successful_mutation_step_order
    {V : Type} (s : StoreState V) (k : String) (v : V) :
    (setOp s k v true true).trace =
      [.cacheWrite k (some v), .durablePut k v,
        .spPublish ⟨k, some v, oldValueOf s k⟩,
        .bcPost (.change k (some v) (oldValueOf s k))] ∧
    (deleteOp s k true true).trace =
      [.cacheWrite k none, .durableDelete k,
        .spPublish ⟨k, none, oldValueOf s k⟩,
        .bcPost (.change k none (oldValueOf s k))] := by
  constructor <;> rfl

/-- C4: `clear()` empties the cache and the durable backend, emits one
change event per previously-known key (the keys of the reconciled
cache-plus-backend view) with `newValue = absent`, and posts a single
distinct `clear` signal cross-tab rather than one message per key. -/
theorem clear_bulk_events_and_single_signal
    {V : Type} (s : StoreState V) :
    (clearOp s true true).state.cache = [] ∧
    (clearOp s true true).state.backend = [] ∧
    (clearOp s true true).spEvents =
      (reconcile s).map (fun p => ⟨p.1, none, some p.2⟩) ∧
    (clearOp s true true).bcMsgs = [.clear] := by
  exact ⟨rfl, rfl, rfl, rfl⟩

/-- C5: `clear()` is idempotent — after the first call the state is
empty, and a second call also resolves (`ok`) and leaves the state
empty. -/
theorem clear_idempotent
    {V : Type} (s : StoreState V) (tOk₁ tOk₂ : Bool) :
    (clearOp s true tOk₁).result = .ok () ∧
    (clearOp s true tOk₁).state.cache = [] ∧
    (clearOp s true tOk₁).state.backend = [] ∧
    (clearOp (clearOp s true tOk₁).state true tOk₂).result = .ok () ∧
    (clearOp (clearOp s true tOk₁).state true tOk₂).state.cache = [] ∧
    (clearOp (clearOp s true tOk₁).state true tOk₂).state.backend = [] := by
  exact ⟨rfl, rfl, rfl, rfl, rfl, rfl⟩

/-- C8: a broadcast-transport failure is contained inside the
Cross-Tab Notifier: with the transport down, `set`, `delete` and
`clear` produce the same result, the same state and the same
same-page events as with the transport up (only the cross-tab post is
dropped), and in particular still resolve when the durable write
succeeds; `get` and `getAll` never touch the transport. -/
theorem transport_failure_contained
    {V : Type} (s : StoreState V) (k : String) (v : V) (durableOk : Bool) :
    ((setOp s k v durableOk false).result = (setOp s k v durableOk true).result ∧
      (setOp s k v durableOk false).state = (setOp s k v durableOk true).state ∧
      (setOp s k v durableOk false).spEvents = (setOp s k v durableOk true).spEvents ∧
      (setOp s k v durableOk false).bcMsgs = []) ∧
    ((deleteOp s k durableOk false).result = (deleteOp s k durableOk true).result ∧
      (deleteOp s k durableOk false).state = (deleteOp s k durableOk true).state ∧
      (deleteOp s k durableOk false).spEvents = (deleteOp s k durableOk true).spEvents ∧
      (deleteOp s k durableOk false).bcMsgs = []) ∧
    ((clearOp s durableOk false).result = (clearOp s durableOk true).result ∧
      (clearOp s durableOk false).state = (clearOp s durableOk true).state ∧
      (clearOp s durableOk false).spEvents = (clearOp s durableOk true).spEvents ∧
      (clearOp s durableOk false).bcMsgs = []) ∧
    (setOp s k v true false).result = .ok () ∧
    (deleteOp s k true false).result = .ok () ∧
    (clearOp s true false).result = .ok () := by
  cases durableOk <;>
    exact ⟨⟨rfl, rfl, rfl, rfl⟩, ⟨rfl, rfl, rfl, rfl⟩, ⟨rfl, rfl, rfl, rfl⟩,
      rfl, rfl, rfl⟩

/-- C10: absence is reported in-band — `get` of a key that is in
neither the cache nor the backend resolves to `none` (`undefined`)
rather than rejecting, and after a successful `delete` of a key,
`get` of that key resolves to `none` whatever the backend does. -/
theorem get_absent_resolves_in_band
    {V : Type} (s t : StoreState V) (k j : String) (tOk bOk : Bool)
    (hc : alookup s.cache k = none) (hb : alookup s.backend k = none) :
    (getOp s k true).1 = .ok none ∧
    (getOp (deleteOp t j true tOk).state j bOk).1 = .ok none := by
  constructor
  · simp [getOp, hc, hb]
  · have h : alookup (deleteOp t j true tOk).state.cache j = some none := by
      simpa [deleteOp] using alookup_aset_self t.cache j (none : Option V)
    simp [getOp, h]

/-- Witness for C10 at concrete states: an empty store and a store
holding the key `a`. -/
theorem get_absent_resolves_in_band_witness :
    (getOp (StoreState.empty Nat) "x" true).1 = .ok none ∧
    (getOp (deleteOp (⟨[("a", some 1)], [("a", 1)]⟩ : StoreState Nat)
      "a" true true).state "a" true).1 = .ok none :=
  get_absent_resolves_in_band (StoreState.empty Nat)
    ⟨[("a", some 1)], [("a", 1)]⟩ "x" "a" true true rfl rfl

/-- C6: after three sequential successful `set("count", i)` calls for
i = 1, 2, 3 starting from `count = 0`, every listener subscribed to
`count` on the store's channel observes exactly the
`(oldValue, newValue)` pairs (0,1), (1,2), (2,3), in that order, with
nothing interleaved and nothing dropped. -/
theorem three_sets_ordered_observation (sub : Subscription) (ch : String)
    (hch : sub.channel = ch) (hk : sub.key = "count") :
    listenerView sub ch threeSetEvents =
      [(some 0, some 1), (some 1, some 2), (some 2, some 3)] := by
  subst hch
  simp only [listenerView, if_pos]
  rw [hk]
  rfl

/-- Witness for C6: a concrete subscription on the channel. -/
theorem three_sets_ordered_observation_witness :
    listenerView ⟨"app", "count", 0⟩ "app" threeSetEvents =
      [(some 0, some 1), (some 1, some 2), (some 2, some 3)] :=
  three_sets_ordered_observation ⟨"app", "count", 0⟩ "app" rfl rfl

/-- On a singleton event whose key matches, a matching listener is
invoked exactly once. -/
theorem listenerView_single {V : Type} (sub : Subscription) (ch k : String)
    (nv ov : Option V) (h1 : sub.channel = ch) (h2 : sub.key = k) :
    (listenerView sub ch [(⟨k, nv, ov⟩ : SPEvent V)]).length = 1 := by
  subst h1; subst h2
  simp [listenerView]

/-- C7: no self-echo — after one `set` performed in a context, the
events observed in that same context are exactly the one local
same-page publish (the transport never delivers a context's own
broadcast back to it), so the total number of listener invocations
equals the number of subscribers, not double. -/
theorem no_self_echo {V : Type} (s : StoreState V) (k : String) (v : V)
    (origin : Nat) (subs : List Subscription) (ch : String)
    (hsubs : ∀ sub ∈ subs, sub.channel = ch ∧ sub.key = k) :
    eventsInContext origin origin (setOp s k v true true) =
      [⟨k, some v, oldValueOf s k⟩] ∧
    invocationCount subs ch
      (eventsInContext origin origin (setOp s k v true true)) = subs.length := by
  have he : eventsInContext origin origin (setOp s k v true true) =
      [⟨k, some v, oldValueOf s k⟩] := by
    simp [eventsInContext, bcDelivered, forwardReceived, setOp]
  refine ⟨he, ?_⟩
  rw [he]
  induction subs with
  | nil => rfl
  | cons a as ih =>
    obtain ⟨h1, h2⟩ := hsubs a (List.mem_cons_self a as)
    have ihas := ih (fun sub hm => hsubs sub (List.mem_cons_of_mem a hm))
    simp only [invocationCount, List.map_cons, List.sum_cons, List.length_cons]
      at ihas ⊢
    rw [listenerView_single a ch k (some v) (oldValueOf s k) h1 h2, ihas]
    omega

/-- Witness for C7: two subscribers in the originating context, one
set, exactly two invocations. -/
theorem no_self_echo_witness :
    eventsInContext 0 0 (setOp (StoreState.empty Nat) "k" 1 true true) =
      [⟨"k", some 1, none⟩] ∧
    invocationCount [⟨"app", "k", 0⟩, ⟨"app", "k", 1⟩] "app"
      (eventsInContext 0 0 (setOp (StoreState.empty Nat) "k" 1 true true)) = 2 :=
  no_self_echo (StoreState.empty Nat) "k" 1 0
    [⟨"app", "k", 0⟩, ⟨"app", "k", 1⟩] "app" (by decide)

/-- C9 counterexample: the README's options table names the fields
`dbName` and `storeName`; an options object carrying `databaseName`
and `collectionName` fields is ignored, so the claim's field names are
wrong (its defaults are right). -/
theorem createStore_option_names_counterexample :
    (resolveOptions [("databaseName", "x"), ("collectionName", "y")]).dbName ≠ "x" ∧
    (resolveOptions [("databaseName", "x"), ("collectionName", "y")]).storeName ≠ "y" ∧
    resolveOptions [("databaseName", "x"), ("collectionName", "y")] =
      ⟨"local-web-storage", "store", "local-web-storage"⟩ := by
  refine ⟨?_, ?_, rfl⟩ <;> decide

/-- C9 (amended): `createStore` accepts options `{ dbName, storeName,
channelName }`, all optional, with `dbName` defaulting to
`"local-web-storage"`, `storeName` to `"store"` and `channelName` to
the database name; with no options the identity is exactly
`("local-web-storage", "store", "local-web-storage")`. -/
theorem createStore_option_defaults (db st chn : String) :
    resolveOptions [] = ⟨"local-web-storage", "store", "local-web-storage"⟩ ∧
    resolveOptions [("dbName", db)] = ⟨db, "store", db⟩ ∧
    resolveOptions [("storeName", st)] = ⟨"local-web-storage", st, "local-web-storage"⟩ ∧
    resolveOptions [("dbName", db), ("storeName", st), ("channelName", chn)] =
      ⟨db, st, chn⟩ := by
  refine ⟨rfl, ?_, ?_, ?_⟩ <;> simp [resolveOptions, alookup, List.find?]

end LocalWebStorage
